import Mathlib

/-!
Shallow embedding of the trip-planning core of `src/AppConApi.py`
(EDM033/EDM_Proyecto), a Streamlit dashboard for the Valenbisi bike-share
network of Valencia.

Modelling conventions:
* pandas DataFrame rows become Lean structures; the snapshot DataFrame `df`
  becomes a `List` of rows in snapshot order.
* Python floats are modelled as `ℚ` (exact rationals); the geodesic distance
  function `geopy.distance.geodesic(...).km` (Karney's algorithm over the
  WGS84 ellipsoid, floating point) is not reproducible exactly, so it is
  abstracted as an explicit parameter `geodesic : ℚ × ℚ → ℚ × ℚ → ℚ` of every
  operation that uses it.
* `df.sort_values(by=c).iloc[0]` is modelled as the head of a comparison sort
  by the column `c`. pandas' default sort kind is an unstable quicksort, so
  which row of several equal-key rows ends up first is not specified by the
  source; the model uses a stable insertion sort, whose head is a minimum of
  the key like any correct comparison sort's, but whose ordering among
  equal-key rows is a modelling artifact and is never relied on in a theorem.
  `.iloc[0]` on an empty frame raises `IndexError`; the model returns `none`
  for that case, so `none` always means "the Python code raised IndexError".
* a Python function call that can raise for other reasons (the forecast
  model's `predict`) is modelled as returning an `Option`, `none` meaning the
  exception propagated.
-/

/-- One row of the station snapshot DataFrame `df` built by
`cargar_datos_api` (lines 24-51): address, coordinates, available bikes,
free docks and total capacity. -/
structure Station where
  direccion : String
  latitud : ℚ
  longitud : ℚ
  bicis_disponibles : ℕ
  espacios_libres : ℕ
  espacios_totales : ℕ
  deriving DecidableEq, Repr

/-- A snapshot row after the forecast columns are attached (lines 88-89):
`Prediccion_1h` is the model's predicted bike count cast to int, and
`Prediccion_libres_1h` is the derived predicted free-dock count. -/
structure StationF where
  st : Station
  prediccion_1h : ℤ
  prediccion_libres_1h : ℤ
  deriving DecidableEq, Repr

/-- The station's coordinate pair `(latitud, longitud)` as used in the
`geodesic((lat, lon), (row["latitud"], row["longitud"]))` calls. -/
def StationF.coord (s : StationF) : ℚ × ℚ :=
  (s.st.latitud, s.st.longitud)

/-- Lines 86-89: the snapshot is augmented once, at script load, with the
forecast columns.  `predecir` models `predecir_bicis_disponibles` (lines
64-83) applied to the whole frame; it returns `none` when `modelo.predict`
raises (the code has no try/except around it, so the exception kills the
whole script run).  On success, `Prediccion_1h` is the predicted value and
`Prediccion_libres_1h := Espacios_totales - Prediccion_1h` (line 89). -/
def conPrediccion (predecir : List Station → Option (List ℤ))
    (df : List Station) : Option (List StationF) :=
  (predecir df).map fun preds =>
    (df.zip preds).map fun p =>
      ⟨p.1, p.2, (p.1.espacios_totales : ℤ) - p.2⟩

/-- `df.sort_values(by=<distance column>)` where the distance column was
computed as `d row` for each row: a comparison sort of the rows by `d`.
See the module docstring for why an insertion sort stands in for pandas'
unstable default quicksort. -/
def sort_values (d : StationF → ℚ) (df : List StationF) : List StationF :=
  List.insertionSort (fun a b => d a ≤ d b) df

/-- The common shape of the two matcher blocks (lines 482-487 and 506-511):
filter the snapshot by an eligibility predicate, compute a distance column,
sort by it and take `.iloc[0]`.  `none` models the `IndexError` that
`.iloc[0]` raises when no row satisfies the predicate. -/
def find_nearest (d : StationF → ℚ) (pred : StationF → Bool)
    (df : List StationF) : Option StationF :=
  (sort_values d (df.filter pred)).head?

/-- Lines 482-487: `df_bicis = df[df["Bicis_disponibles"] > 0]`, distance to
the origin, sort, `.iloc[0]`. -/
def est_coger (geodesic : ℚ × ℚ → ℚ × ℚ → ℚ) (ori : ℚ × ℚ)
    (df : List StationF) : Option StationF :=
  find_nearest (fun s => geodesic ori s.coord)
    (fun s => decide (0 < s.st.bicis_disponibles)) df

/-- Lines 506-511: `df_huecos = df[df["Espacios_libres"] > 0]`, distance to
the destination, sort, `.iloc[0]`. -/
def est_dejar (geodesic : ℚ × ℚ → ℚ × ℚ → ℚ) (dest : ℚ × ℚ)
    (df : List StationF) : Option StationF :=
  find_nearest (fun s => geodesic dest s.coord)
    (fun s => decide (0 < s.st.espacios_libres)) df

/-- Lines 489-502: when the chosen pickup station has `Prediccion_1h <= 1`,
re-filter `df_bicis` to rows with `Prediccion_1h > 1`, sort by distance to
the origin and, if any remain, surface the first as the advisory
alternative (`est_alt`); otherwise no alternative is surfaced.  The guard
`if not alternativas.empty` means this branch never raises, hence `head?`
with no crash interpretation. -/
def alternativa_coger (geodesic : ℚ × ℚ → ℚ × ℚ → ℚ) (ori : ℚ × ℚ)
    (df : List StationF) (primaria : StationF) : Option StationF :=
  if primaria.prediccion_1h ≤ 1 then
    (sort_values (fun s => geodesic ori s.coord)
      (((df.filter fun s => decide (0 < s.st.bicis_disponibles)).filter
        fun s => decide (1 < s.prediccion_1h)))).head?
  else none

/-- Lines 513-524: symmetric advisory alternative for the drop-off station,
using `Prediccion_libres_1h` over `df_huecos`. -/
def alternativa_dejar (geodesic : ℚ × ℚ → ℚ × ℚ → ℚ) (dest : ℚ × ℚ)
    (df : List StationF) (primaria : StationF) : Option StationF :=
  if primaria.prediccion_libres_1h ≤ 1 then
    (sort_values (fun s => geodesic dest s.coord)
      (((df.filter fun s => decide (0 < s.st.espacios_libres)).filter
        fun s => decide (1 < s.prediccion_libres_1h)))).head?
  else none

/-- The planner's result for one successful request (lines 528-533 plus the
advisory warnings): the chosen pickup and drop-off rows, their distance
columns, and the optional alternatives. -/
structure Recomendacion where
  est_coger : StationF
  distancia_origen : ℚ
  alternativa_origen : Option StationF
  est_dejar : StationF
  distancia_destino : ℚ
  alternativa_destino : Option StationF
  deriving DecidableEq, Repr

/-- Lines 482-533: the station-matching part of a submitted request, after
geocoding succeeded.  `none` models the uncaught `IndexError` from either
`.iloc[0]` (pickup is computed first, as in the source). -/
def planificar (geodesic : ℚ × ℚ → ℚ × ℚ → ℚ) (ori dest : ℚ × ℚ)
    (df : List StationF) : Option Recomendacion :=
  match est_coger geodesic ori df with
  | none => none
  | some c =>
    match est_dejar geodesic dest df with
    | none => none
    | some j =>
      some { est_coger := c
             distancia_origen := geodesic ori c.coord
             alternativa_origen := alternativa_coger geodesic ori df c
             est_dejar := j
             distancia_destino := geodesic dest j.coord
             alternativa_destino := alternativa_dejar geodesic dest df j }

/-- Line 569: `distancia_total_km = est_coger["Distancia_origen"] +
est_dejar["Distancia_destino"]` — only the two access/egress legs, not the
cycling leg between the stations. -/
def distancia_total_km (r : Recomendacion) : ℚ :=
  r.distancia_origen + r.distancia_destino

/-- Line 570: `co2_evitar_kg = distancia_total_km * 0.21`. -/
def co2_evitar_kg (distancia : ℚ) : ℚ :=
  distancia * (21 / 100)

/-- Line 576: the folium map widget key,
`f"mapa_\x7blat_ori\x7d_\x7blon_ori\x7d_\x7blat_dest\x7d_\x7blon_dest\x7d"`,
built from the four raw (unrounded) resolved coordinates.  The interpolated
string is injective in the four values (a number's repr contains no
underscore, so the components can be recovered unambiguously), so the key
is modelled as the quadruple of the four coordinates rather than as the
formatted string. -/
def mapa_ruta_key (lat_ori lon_ori lat_dest lon_dest : ℚ) : ℚ × ℚ × ℚ × ℚ :=
  (lat_ori, lon_ori, lat_dest, lon_dest)

/-- One raw Nominatim result as consumed by `geolocalizar_valencia`
(lines 424-434): a latitude, a longitude and a `display_name`. -/
structure ResultadoCrudo where
  lat : ℚ
  lon : ℚ
  display_name : String
  deriving DecidableEq, Repr

/-- One validated geocoding candidate (lines 438-443). -/
structure Candidato where
  display_name : String
  lat : ℚ
  lon : ℚ
  score : ℕ
  deriving DecidableEq, Repr

/-- Lines 384-388: the bounding-box test for Valencia city,
`39.40 <= lat <= 39.55 and -0.50 <= lon <= -0.30`. -/
def dentro_de_valencia (lat lon : ℚ) : Bool :=
  decide ((39.40 : ℚ) ≤ lat) && decide (lat ≤ (39.55 : ℚ)) &&
    decide ((-0.50 : ℚ) ≤ lon) && decide (lon ≤ (-0.30 : ℚ))

/-- Line 434: `nombre_corto = texto_completo.split(",")[0]`. -/
def nombre_corto (texto_completo : String) : String :=
  (texto_completo.splitOn ",").headD texto_completo

/-- Lines 398-448: validation and ranking of the raw Nominatim results.
Results outside `dentro_de_valencia` are dropped (lines 430-431); the rest
get a fuzzy-match score against the user's input (line 436) — the scoring
function `fuzz.partial_ratio(direccion_usuario.lower(), -.lower())` is
modelled as the abstract parameter `score_similitud`, already closed over
the user's input string; candidates are sorted best-score-first with
Python's stable `sorted` (line 446) and the top 5 are kept (line 448).
The HTTP-failure path (line 421-422) returns `[]`, indistinguishable here
from an empty result list. -/
def geolocalizar_valencia (score_similitud : String → ℕ)
    (resultados_crudos : List ResultadoCrudo) : List Candidato :=
  let resultados_validos := resultados_crudos.filterMap fun r =>
    if dentro_de_valencia r.lat r.lon then
      some ⟨r.display_name, r.lat, r.lon, score_similitud (nombre_corto r.display_name)⟩
    else none
  (List.insertionSort (fun a b => b.score ≤ a.score) resultados_validos).take 5

/-- The observable outcome of one submitted request (lines 465-534).
`coordenadasNoValidas` is the error at line 470 ("No se han encontrado
coordenadas válidas..."), shown when either geocoding result list is
empty; `fueraDeValencia` is the error at line 479 ("... no está dentro del
área urbana de Valencia"); `indexError` is the uncaught `IndexError` from
`.iloc[0]` when a matcher's eligible set is empty; `ruta` is the success
case, carrying the recommendation and the derived map key of line 576. -/
inductive Resultado where
  | coordenadasNoValidas
  | fueraDeValencia
  | indexError
  | ruta (r : Recomendacion) (key : ℚ × ℚ × ℚ × ℚ)
  deriving DecidableEq, Repr

/-- Lines 465-534 (with the rendering block 541-579): the whole submitted
request after the two `geolocalizar_valencia` calls.  Takes the raw
resolver outputs and per-direction scoring functions, the snapshot with
forecasts, and the abstract geodesic distance. -/
def submit (geodesic : ℚ × ℚ → ℚ × ℚ → ℚ)
    (score_ori score_dest : String → ℕ)
    (crudos_ori crudos_dest : List ResultadoCrudo)
    (df : List StationF) : Resultado :=
  match geolocalizar_valencia score_ori crudos_ori,
        geolocalizar_valencia score_dest crudos_dest with
  | [], _ => .coordenadasNoValidas
  | _ :: _, [] => .coordenadasNoValidas
  | ubi_ori :: _, ubi_dest :: _ =>
    if !dentro_de_valencia ubi_ori.lat ubi_ori.lon
        || !dentro_de_valencia ubi_dest.lat ubi_dest.lon then
      .fueraDeValencia
    else
      match planificar geodesic (ubi_ori.lat, ubi_ori.lon)
          (ubi_dest.lat, ubi_dest.lon) df with
      | none => .indexError
      | some r =>
        .ruta r (mapa_ruta_key ubi_ori.lat ubi_ori.lon ubi_dest.lat ubi_dest.lon)

/-- The whole script run for one request: the forecast columns are computed
at load time (line 88) before any request can be served, so a forecaster
failure (`predecir - = none`, i.e. an uncaught exception in
`modelo.predict`) aborts the run before the planner ever executes;
`none` here means no outcome of any kind is produced. -/
def submitConPrediccion (predecir : List Station → Option (List ℤ))
    (geodesic : ℚ × ℚ → ℚ × ℚ → ℚ)
    (score_ori score_dest : String → ℕ)
    (crudos_ori crudos_dest : List ResultadoCrudo)
    (df : List Station) : Option Resultado :=
  (conPrediccion predecir df).map fun df2 =>
    submit geodesic score_ori score_dest crudos_ori crudos_dest df2

/-- Modelled from the spec: §8's "identical (rounded) ... coordinates"
compares coordinates after rounding; the spec fixes no precision, so the
model rounds to 4 decimal places (≈11 m, the natural choice for the
"four rounded coordinate values" of §4.2's idempotence policy).  Nothing
in `src/AppConApi.py` rounds coordinates. -/
def redondear4 (q : ℚ) : ℚ :=
  (round (q * 10000) : ℤ) / 10000

/-! ### Concrete fixtures used by witnesses and counterexamples -/

/-- A concrete executable stand-in for the abstract geodesic distance:
taxicab distance on coordinate pairs (any distance function works for the
witnesses; the theorems hold for all of them). -/
def dTaxi : ℚ × ℚ → ℚ × ℚ → ℚ :=
  fun p q => |p.1 - q.1| + |p.2 - q.2|

def stA : StationF := ⟨⟨"A", 39.47, -0.38, 5, 5, 10⟩, 3, 7⟩

def stB : StationF := ⟨⟨"B", 39.48, -0.39, 0, 10, 10⟩, 0, 10⟩

def stC : StationF := ⟨⟨"C", 0, 0, 2, 2, 4⟩, 1, 1⟩

def stD : StationF := ⟨⟨"D", 1, 0, 3, 3, 6⟩, 4, 4⟩

def crOri : ResultadoCrudo := ⟨39.47, -0.38, "Calle Origen"⟩

def crDest : ResultadoCrudo := ⟨39.48, -0.38, "Calle Destino"⟩

/-- A raw resolver result at (39.30, -0.10), outside the Valencia
bounding box — the spec's §8 example scenario 5. -/
def crFuera : ResultadoCrudo := ⟨39.30, -0.10, "Fuera de Valencia"⟩

/-- A concrete stand-in for the fuzzy-matching score function. -/
def scFix : String → ℕ := fun _ => 50

/-- The recommendation the planner produces for origin (39.47, -0.38),
destination (39.48, -0.38) and snapshot `[stA]` under `dTaxi`. -/
def recA : Recomendacion := ⟨stA, 0, none, stA, 1 / 100, none⟩

/-- The recommendation the planner produces for origin and destination
(0, 0) and snapshot `[stC, stD]` under `dTaxi`: `stC` is primary for both
roles and `stD` is the advisory alternative for both. -/
def recC : Recomendacion := ⟨stC, 0, some stD, stC, 0, some stD⟩

/-- A second stand-in score function, to vary everything but the resolved
coordinates between two requests. -/
def scFix60 : String → ℕ := fun _ => 60

/-- An origin resolving to latitude 39.4700001. -/
def crOriA : ResultadoCrudo := ⟨39.4700001, -0.38, "Calle Origen"⟩

/-- An origin resolving to latitude 39.4700002 — the same as `crOriA`
after rounding to 4 decimal places, different raw. -/
def crOriB : ResultadoCrudo := ⟨39.4700002, -0.38, "Calle Origen"⟩

/-- Planner output for origin `crOriA`, destination `crDest`, snapshot
`[stA]` under `dTaxi`. -/
def recOA : Recomendacion := ⟨stA, 1 / 10000000, none, stA, 1 / 100, none⟩

/-- Planner output for origin `crOriB`, destination `crDest`, snapshot
`[stA]` under `dTaxi`. -/
def recOB : Recomendacion := ⟨stA, 1 / 5000000, none, stA, 1 / 100, none⟩

/-! ### Helper lemmas about the sorted-head matcher -/

theorem head_sort_values_min (d : StationF → ℚ) (l : List StationF)
    (s : StationF) (h : (sort_values d l).head? = some s) :
    s ∈ l ∧ ∀ t ∈ l, d s ≤ d t := by
  haveI : IsTotal StationF (fun a b => d a ≤ d b) :=
    ⟨fun a b => le_total (d a) (d b)⟩
  haveI : IsTrans StationF (fun a b => d a ≤ d b) :=
    ⟨fun a b c hab hbc => le_trans hab hbc⟩
  have hperm : List.Perm (sort_values d l) l := List.perm_insertionSort _ l
  have hsorted : List.Sorted (fun a b => d a ≤ d b) (sort_values d l) :=
    List.sorted_insertionSort _ l
  cases hL : sort_values d l with
  | nil => rw [hL] at h; simp at h
  | cons a tl =>
    rw [hL] at h
    simp only [List.head?_cons, Option.some.injEq] at h
    subst h
    rw [hL] at hperm hsorted
    refine ⟨hperm.mem_iff.mp (List.mem_cons_self _ _), fun t ht => ?_⟩
    rcases List.mem_cons.mp (hperm.mem_iff.mpr ht) with rfl | h2
    · exact le_refl _
    · exact List.rel_of_sorted_cons hsorted t h2

theorem sort_values_head_of_mem (d : StationF → ℚ) (l : List StationF)
    (s : StationF) (hs : s ∈ l) : ∃ c, (sort_values d l).head? = some c := by
  have hperm : List.Perm (sort_values d l) l := List.perm_insertionSort _ l
  cases hL : sort_values d l with
  | nil =>
    rw [hL] at hperm
    cases (hperm.symm.mem_iff.mp hs)
  | cons a tl => exact ⟨a, by simp⟩

theorem find_nearest_spec (d : StationF → ℚ) (pred : StationF → Bool)
    (df : List StationF) (c : StationF) (h : find_nearest d pred df = some c) :
    c ∈ df ∧ pred c = true ∧ ∀ t ∈ df, pred t = true → d c ≤ d t := by
  obtain ⟨hmem, hmin⟩ := head_sort_values_min d (df.filter pred) c h
  rcases List.mem_filter.mp hmem with ⟨hdf, hp⟩
  exact ⟨hdf, hp, fun t ht hpt => hmin t (List.mem_filter.mpr ⟨ht, hpt⟩)⟩

theorem find_nearest_isSome (d : StationF → ℚ) (pred : StationF → Bool)
    (df : List StationF) (s : StationF) (hs : s ∈ df) (hp : pred s = true) :
    ∃ c, find_nearest d pred df = some c :=
  sort_values_head_of_mem d (df.filter pred) s (List.mem_filter.mpr ⟨hs, hp⟩)

theorem find_nearest_none (d : StationF → ℚ) (pred : StationF → Bool)
    (df : List StationF) (h : ∀ s ∈ df, pred s = false) :
    find_nearest d pred df = none := by
  have hf : df.filter pred = [] := by
    rw [List.filter_eq_nil_iff]
    intro a ha
    simp [h a ha]
  unfold find_nearest
  rw [hf]
  rfl

theorem planificar_inv (geodesic : ℚ × ℚ → ℚ × ℚ → ℚ) (ori dest : ℚ × ℚ)
    (df : List StationF) (r : Recomendacion)
    (h : planificar geodesic ori dest df = some r) :
    est_coger geodesic ori df = some r.est_coger ∧
    est_dejar geodesic dest df = some r.est_dejar ∧
    r.distancia_origen = geodesic ori r.est_coger.coord ∧
    r.distancia_destino = geodesic dest r.est_dejar.coord ∧
    r.alternativa_origen = alternativa_coger geodesic ori df r.est_coger ∧
    r.alternativa_destino = alternativa_dejar geodesic dest df r.est_dejar := by
  unfold planificar at h
  cases hc : est_coger geodesic ori df with
  | none => rw [hc] at h; simp at h
  | some c =>
    rw [hc] at h
    cases hj : est_dejar geodesic dest df with
    | none => rw [hj] at h; simp at h
    | some j =>
      rw [hj] at h
      simp only [Option.some.injEq] at h
      subst h
      exact ⟨rfl, rfl, rfl, rfl, rfl, rfl⟩



/-! ### Claim theorems -/

/-- C1: for every station list and predicate satisfied by at least one
station, the matcher (`find_nearest`, of which `est_coger` and `est_dejar`
are the two instances in the source) returns a station that satisfies the
predicate and whose distance to the query coordinate is ≤ the distance of
every other station satisfying the predicate. -/
theorem C1_matcher_devuelve_el_mas_cercano
    (geodesic : ℚ × ℚ → ℚ × ℚ → ℚ) (q : ℚ × ℚ) (pred : StationF → Bool)
    (df : List StationF) (s : StationF) (hs : s ∈ df) (hp : pred s = true) :
    ∃ c, find_nearest (fun t => geodesic q t.coord) pred df = some c ∧
      pred c = true ∧
      ∀ t ∈ df, pred t = true → geodesic q c.coord ≤ geodesic q t.coord := by
  obtain ⟨c, hc⟩ :=
    find_nearest_isSome (fun t => geodesic q t.coord) pred df s hs hp
  obtain ⟨_, hpc, hmin⟩ :=
    find_nearest_spec (fun t => geodesic q t.coord) pred df c hc
  exact ⟨c, hc, hpc, hmin⟩

/-- Witness for C1: the snapshot `[stB, stA]` with the pickup predicate;
`stA` (bikes available, nearer pro forma) is returned. -/
theorem C1_witness :
    ∃ c, find_nearest (fun t => dTaxi (39.47, -0.38) t.coord)
        (fun t => decide (0 < t.st.bicis_disponibles)) [stB, stA] = some c ∧
      decide (0 < c.st.bicis_disponibles) = true ∧
      ∀ t ∈ [stB, stA], decide (0 < t.st.bicis_disponibles) = true →
        dTaxi (39.47, -0.38) c.coord ≤ dTaxi (39.47, -0.38) t.coord :=
  C1_matcher_devuelve_el_mas_cercano dTaxi (39.47, -0.38)
    (fun t => decide (0 < t.st.bicis_disponibles)) [stB, stA] stA
    (by simp) (by simp [stA])

/-- C2 counterexample: a request in which both addresses resolve to valid
in-bounds coordinates but no station has bikes available does NOT yield a
structured `NotFound`/`NoEligibleStation` outcome: the `.iloc[0]` call
raises `IndexError` (the `indexError` constructor of the model), i.e. the
code crashes instead of reporting. -/
theorem C2_counterexample :
    submit dTaxi scFix scFix [crOri] [crDest] [stB] = Resultado.indexError ∧
    Resultado.indexError ≠ Resultado.coordenadasNoValidas := by
  constructor
  · norm_num [submit, geolocalizar_valencia, dentro_de_valencia, nombre_corto,
      planificar, est_coger, est_dejar, find_nearest, sort_values,
      alternativa_coger, alternativa_dejar, dTaxi, StationF.coord, stB, crOri,
      crDest, scFix, List.insertionSort, List.orderedInsert, List.filter,
      List.filterMap]
  · simp

/-- C2 as amended: when no station satisfies the eligibility predicate the
matcher produces the empty-frame state on which `.iloc[0]` raises
`IndexError` (modelled `none`), and a snapshot with no bikes anywhere makes
the whole planning step crash (`planificar = none`); no `NotFound` or
`NoEligibleStation` outcome exists anywhere in the result type. -/
theorem C2_sin_elegibles_lanza_IndexError :
    (∀ (d : StationF → ℚ) (pred : StationF → Bool) (df : List StationF),
        (∀ s ∈ df, pred s = false) → find_nearest d pred df = none) ∧
    (∀ (geodesic : ℚ × ℚ → ℚ × ℚ → ℚ) (ori dest : ℚ × ℚ)
        (df : List StationF),
        (∀ s ∈ df, s.st.bicis_disponibles = 0) →
          planificar geodesic ori dest df = none) := by
  refine ⟨find_nearest_none, fun geodesic ori dest df h => ?_⟩
  have hcog : est_coger geodesic ori df = none := by
    apply find_nearest_none
    intro s hs
    simp [h s hs]
  unfold planificar
  rw [hcog]

/-- Witness for C2's amended theorem. -/
theorem C2_witness :
    find_nearest (fun t => dTaxi (39.47, -0.38) t.coord)
        (fun t => decide (0 < t.st.bicis_disponibles)) [stB] = none ∧
    planificar dTaxi (39.47, -0.38) (39.48, -0.38) [stB] = none :=
  ⟨C2_sin_elegibles_lanza_IndexError.1 (fun t => dTaxi (39.47, -0.38) t.coord)
      (fun t => decide (0 < t.st.bicis_disponibles)) [stB] (by simp [stB]),
   C2_sin_elegibles_lanza_IndexError.2 dTaxi (39.47, -0.38) (39.48, -0.38)
      [stB] (by simp [stB])⟩

/-- C4: the environmental-impact estimate of a completed request is
`(distance origin→pickup + distance destination→dropoff) * 0.21` — the
two access/egress legs only, with no term for the cycling leg between the
stations — and the estimate is strictly monotone in that total distance. -/
theorem C4_co2_factor_y_monotonia :
    (∀ (geodesic : ℚ × ℚ → ℚ × ℚ → ℚ) (ori dest : ℚ × ℚ)
        (df : List StationF) (r : Recomendacion),
        planificar geodesic ori dest df = some r →
          co2_evitar_kg (distancia_total_km r)
            = (geodesic ori r.est_coger.coord + geodesic dest r.est_dejar.coord)
                * (21 / 100)) ∧
    (∀ d1 d2 : ℚ, d1 < d2 → co2_evitar_kg d1 < co2_evitar_kg d2) := by
  constructor
  · intro geodesic ori dest df r h
    obtain ⟨-, -, ho, hd, -, -⟩ := planificar_inv geodesic ori dest df r h
    unfold co2_evitar_kg distancia_total_km
    rw [ho, hd]
  · intro d1 d2 h
    unfold co2_evitar_kg
    have h21 : (0 : ℚ) < 21 / 100 := by norm_num
    exact mul_lt_mul_of_pos_right h h21

/-- Witness for C4: the concrete plan `recA` and the pair 0 < 1. -/
theorem C4_witness :
    co2_evitar_kg (distancia_total_km recA)
      = (dTaxi (39.47, -0.38) recA.est_coger.coord
          + dTaxi (39.48, -0.38) recA.est_dejar.coord) * (21 / 100) ∧
    co2_evitar_kg 0 < co2_evitar_kg 1 :=
  ⟨C4_co2_factor_y_monotonia.1 dTaxi (39.47, -0.38) (39.48, -0.38) [stA] recA
      (by norm_num [planificar, est_coger, est_dejar, find_nearest, sort_values,
        alternativa_coger, alternativa_dejar, dTaxi, StationF.coord, stA, recA,
        List.insertionSort, List.orderedInsert, List.filter]),
   C4_co2_factor_y_monotonia.2 0 1 (by norm_num)⟩

theorem alternativa_coger_spec (geodesic : ℚ × ℚ → ℚ × ℚ → ℚ) (ori : ℚ × ℚ)
    (df : List StationF) (primaria : StationF)
    (hpred : primaria.prediccion_1h ≤ 1) (s : StationF) (hs : s ∈ df)
    (hb : 0 < s.st.bicis_disponibles) (hp : 1 < s.prediccion_1h) :
    ∃ a, alternativa_coger geodesic ori df primaria = some a ∧
      0 < a.st.bicis_disponibles ∧ 1 < a.prediccion_1h ∧
      ∀ t ∈ df, 0 < t.st.bicis_disponibles → 1 < t.prediccion_1h →
        geodesic ori a.coord ≤ geodesic ori t.coord := by
  unfold alternativa_coger
  rw [if_pos hpred]
  have hsl : s ∈ (df.filter fun u => decide (0 < u.st.bicis_disponibles)).filter
      fun u => decide (1 < u.prediccion_1h) :=
    List.mem_filter.mpr
      ⟨List.mem_filter.mpr ⟨hs, by simpa using hb⟩, by simpa using hp⟩
  obtain ⟨a, ha⟩ := sort_values_head_of_mem (fun t => geodesic ori t.coord) _ s hsl
  obtain ⟨haml, hmin⟩ := head_sort_values_min (fun t => geodesic ori t.coord) _ a ha
  rcases List.mem_filter.mp haml with ⟨h1, h2⟩
  rcases List.mem_filter.mp h1 with ⟨-, h3⟩
  refine ⟨a, ha, by simpa using h3, by simpa using h2, fun t ht htb htp => ?_⟩
  exact hmin t (List.mem_filter.mpr
    ⟨List.mem_filter.mpr ⟨ht, by simpa using htb⟩, by simpa using htp⟩)

theorem alternativa_dejar_spec (geodesic : ℚ × ℚ → ℚ × ℚ → ℚ) (dest : ℚ × ℚ)
    (df : List StationF) (primaria : StationF)
    (hpred : primaria.prediccion_libres_1h ≤ 1) (s : StationF) (hs : s ∈ df)
    (hb : 0 < s.st.espacios_libres) (hp : 1 < s.prediccion_libres_1h) :
    ∃ a, alternativa_dejar geodesic dest df primaria = some a ∧
      0 < a.st.espacios_libres ∧ 1 < a.prediccion_libres_1h ∧
      ∀ t ∈ df, 0 < t.st.espacios_libres → 1 < t.prediccion_libres_1h →
        geodesic dest a.coord ≤ geodesic dest t.coord := by
  unfold alternativa_dejar
  rw [if_pos hpred]
  have hsl : s ∈ (df.filter fun u => decide (0 < u.st.espacios_libres)).filter
      fun u => decide (1 < u.prediccion_libres_1h) :=
    List.mem_filter.mpr
      ⟨List.mem_filter.mpr ⟨hs, by simpa using hb⟩, by simpa using hp⟩
  obtain ⟨a, ha⟩ := sort_values_head_of_mem (fun t => geodesic dest t.coord) _ s hsl
  obtain ⟨haml, hmin⟩ := head_sort_values_min (fun t => geodesic dest t.coord) _ a ha
  rcases List.mem_filter.mp haml with ⟨h1, h2⟩
  rcases List.mem_filter.mp h1 with ⟨-, h3⟩
  refine ⟨a, ha, by simpa using h3, by simpa using h2, fun t ht htb htp => ?_⟩
  exact hmin t (List.mem_filter.mpr
    ⟨List.mem_filter.mpr ⟨ht, by simpa using htb⟩, by simpa using htp⟩)

/-- C3: if the primary pickup match has `Prediccion_1h ≤ 1` and some
eligible station (bikes available) has `Prediccion_1h > 1`, the planner's
output carries a non-empty advisory pickup alternative — the nearest
station among those — while the primary match is exactly the base
(non-forecast) nearest match, unchanged; symmetrically for drop-off with
`Prediccion_libres_1h`. -/
theorem C3_alternativa_asesora (geodesic : ℚ × ℚ → ℚ × ℚ → ℚ)
    (ori dest : ℚ × ℚ) (df : List StationF) (r : Recomendacion)
    (h : planificar geodesic ori dest df = some r) :
    (r.est_coger.prediccion_1h ≤ 1 →
      ∀ s ∈ df, 0 < s.st.bicis_disponibles → 1 < s.prediccion_1h →
        est_coger geodesic ori df = some r.est_coger ∧
        ∃ a, r.alternativa_origen = some a ∧ 0 < a.st.bicis_disponibles ∧
          1 < a.prediccion_1h ∧
          ∀ t ∈ df, 0 < t.st.bicis_disponibles → 1 < t.prediccion_1h →
            geodesic ori a.coord ≤ geodesic ori t.coord) ∧
    (r.est_dejar.prediccion_libres_1h ≤ 1 →
      ∀ s ∈ df, 0 < s.st.espacios_libres → 1 < s.prediccion_libres_1h →
        est_dejar geodesic dest df = some r.est_dejar ∧
        ∃ a, r.alternativa_destino = some a ∧ 0 < a.st.espacios_libres ∧
          1 < a.prediccion_libres_1h ∧
          ∀ t ∈ df, 0 < t.st.espacios_libres → 1 < t.prediccion_libres_1h →
            geodesic dest a.coord ≤ geodesic dest t.coord) := by
  obtain ⟨hc, hj, -, -, hao, had⟩ := planificar_inv geodesic ori dest df r h
  constructor
  · intro hle s hs hb hp
    refine ⟨hc, ?_⟩
    rw [hao]
    exact alternativa_coger_spec geodesic ori df r.est_coger hle s hs hb hp
  · intro hle s hs hb hp
    refine ⟨hj, ?_⟩
    rw [had]
    exact alternativa_dejar_spec geodesic dest df r.est_dejar hle s hs hb hp

/-- Witness for C3: snapshot `[stC, stD]`; `stC` is the primary match for
both roles with forecasts ≤ 1, and `stD` is surfaced as the advisory
alternative for both, with the primaries unchanged. -/
theorem C3_witness :
    (est_coger dTaxi (0, 0) [stC, stD] = some recC.est_coger ∧
      ∃ a, recC.alternativa_origen = some a ∧ 0 < a.st.bicis_disponibles ∧
        1 < a.prediccion_1h ∧
        ∀ t ∈ [stC, stD], 0 < t.st.bicis_disponibles → 1 < t.prediccion_1h →
          dTaxi (0, 0) a.coord ≤ dTaxi (0, 0) t.coord) ∧
    (est_dejar dTaxi (0, 0) [stC, stD] = some recC.est_dejar ∧
      ∃ a, recC.alternativa_destino = some a ∧ 0 < a.st.espacios_libres ∧
        1 < a.prediccion_libres_1h ∧
        ∀ t ∈ [stC, stD], 0 < t.st.espacios_libres →
          1 < t.prediccion_libres_1h →
            dTaxi (0, 0) a.coord ≤ dTaxi (0, 0) t.coord) :=
  ⟨(C3_alternativa_asesora dTaxi (0, 0) (0, 0) [stC, stD] recC
      (by norm_num [planificar, est_coger, est_dejar, find_nearest, sort_values,
        alternativa_coger, alternativa_dejar, dTaxi, StationF.coord, stC, stD,
        recC, List.insertionSort, List.orderedInsert, List.filter])).1
      (by simp [recC, stC]) stD (by simp) (by simp [stD]) (by simp [stD]),
   (C3_alternativa_asesora dTaxi (0, 0) (0, 0) [stC, stD] recC
      (by norm_num [planificar, est_coger, est_dejar, find_nearest, sort_values,
        alternativa_coger, alternativa_dejar, dTaxi, StationF.coord, stC, stD,
        recC, List.insertionSort, List.orderedInsert, List.filter])).2
      (by simp [recC, stC]) stD (by simp) (by simp [stD]) (by simp [stD])⟩

/-- C7: every recommendation's pickup station has `Bicis_disponibles > 0`
and its drop-off station has `Espacios_libres > 0` — the snapshot columns,
not the forecast ones — and the two stations are allowed to coincide
(witnessed by a one-station snapshot serving both roles). -/
theorem C7_invariante_disponibilidad :
    (∀ (geodesic : ℚ × ℚ → ℚ × ℚ → ℚ) (ori dest : ℚ × ℚ)
        (df : List StationF) (r : Recomendacion),
        planificar geodesic ori dest df = some r →
          0 < r.est_coger.st.bicis_disponibles ∧
          0 < r.est_dejar.st.espacios_libres) ∧
    (∃ (geodesic : ℚ × ℚ → ℚ × ℚ → ℚ) (ori dest : ℚ × ℚ)
        (df : List StationF) (r : Recomendacion),
        planificar geodesic ori dest df = some r ∧
          r.est_coger = r.est_dejar) := by
  constructor
  · intro geodesic ori dest df r h
    obtain ⟨hc, hj, -, -, -, -⟩ := planificar_inv geodesic ori dest df r h
    obtain ⟨-, hpc, -⟩ := find_nearest_spec _ _ df r.est_coger hc
    obtain ⟨-, hpj, -⟩ := find_nearest_spec _ _ df r.est_dejar hj
    exact ⟨by simpa using hpc, by simpa using hpj⟩
  · refine ⟨dTaxi, (39.47, -0.38), (39.48, -0.38), [stA], recA, ?_, by simp [recA]⟩
    norm_num [planificar, est_coger, est_dejar, find_nearest, sort_values,
      alternativa_coger, alternativa_dejar, dTaxi, StationF.coord, stA, recA,
      List.insertionSort, List.orderedInsert, List.filter]

/-- Witness for C7's universally quantified part, at the concrete plan
`recA`. -/
theorem C7_witness :
    0 < recA.est_coger.st.bicis_disponibles ∧
    0 < recA.est_dejar.st.espacios_libres :=
  C7_invariante_disponibilidad.1 dTaxi (39.47, -0.38) (39.48, -0.38) [stA] recA
    (by norm_num [planificar, est_coger, est_dejar, find_nearest, sort_values,
      alternativa_coger, alternativa_dejar, dTaxi, StationF.coord, stA, recA,
      List.insertionSort, List.orderedInsert, List.filter])

/-- C10: every station of the forecast-augmented snapshot has
`Prediccion_libres_1h = Espacios_totales - Prediccion_1h`, so the two
predictions always sum exactly to the station's capacity; the forecaster is
consulted only for the bike count (`conPrediccion` derives the dock
forecast arithmetically). -/
theorem C10_prediccion_libres_derivada
    (predecir : List Station → Option (List ℤ)) (df : List Station)
    (df2 : List StationF) (s : StationF)
    (h : conPrediccion predecir df = some df2) (hs : s ∈ df2) :
    s.prediccion_libres_1h = (s.st.espacios_totales : ℤ) - s.prediccion_1h ∧
    s.prediccion_1h + s.prediccion_libres_1h = (s.st.espacios_totales : ℤ) := by
  unfold conPrediccion at h
  cases hp : predecir df with
  | none => rw [hp] at h; simp at h
  | some preds =>
    rw [hp] at h
    simp only [Option.map_some', Option.some.injEq] at h
    subst h
    rcases List.mem_map.mp hs with ⟨p, -, rfl⟩
    refine ⟨rfl, ?_⟩
    dsimp only
    omega

/-- Witness for C10: a one-station snapshot with capacity 10 and forecast
3; the derived dock forecast is 7. -/
theorem C10_witness :
    stA.prediccion_libres_1h
      = (stA.st.espacios_totales : ℤ) - stA.prediccion_1h ∧
    stA.prediccion_1h + stA.prediccion_libres_1h
      = (stA.st.espacios_totales : ℤ) :=
  C10_prediccion_libres_derivada (fun _ => some [3]) [stA.st] [stA] stA
    (by norm_num [conPrediccion, stA]) (by simp)

theorem geolocalizar_dentro (score : String → ℕ)
    (crudos : List ResultadoCrudo) (c : Candidato)
    (hc : c ∈ geolocalizar_valencia score crudos) :
    dentro_de_valencia c.lat c.lon = true := by
  unfold geolocalizar_valencia at hc
  have hc2 := List.take_subset 5 _ hc
  rw [List.mem_insertionSort] at hc2
  rcases List.mem_filterMap.mp hc2 with ⟨r, -, hr⟩
  by_cases hd : dentro_de_valencia r.lat r.lon
  · rw [if_pos hd] at hr
    simp only [Option.some.injEq] at hr
    subst hr
    exact hd
  · rw [if_neg hd] at hr
    cases hr

theorem geolocalizar_vacio_si_todo_fuera (score : String → ℕ)
    (crudos : List ResultadoCrudo)
    (h : ∀ r ∈ crudos, dentro_de_valencia r.lat r.lon = false) :
    geolocalizar_valencia score crudos = [] := by
  unfold geolocalizar_valencia
  have hnil : (crudos.filterMap fun r =>
      if dentro_de_valencia r.lat r.lon then
        some (⟨r.display_name, r.lat, r.lon,
          score (nombre_corto r.display_name)⟩ : Candidato)
      else none) = [] := by
    rw [List.filterMap_eq_nil_iff]
    intro r hr
    rw [if_neg (by simp [h r hr])]
  rw [hnil]
  rfl

/-- C5 counterexample: the spec's scenario — the resolver's only candidate
is at (39.30, -0.10), outside the city bounds — yields the generic
"no valid coordinates" outcome (the same one used when the resolver
returns nothing), not a distinct out-of-service-area outcome. -/
theorem C5_counterexample :
    submit dTaxi scFix scFix [crFuera] [crDest] [stA]
      = Resultado.coordenadasNoValidas ∧
    Resultado.coordenadasNoValidas ≠ Resultado.fueraDeValencia := by
  constructor
  · norm_num [submit, geolocalizar_valencia, dentro_de_valencia, nombre_corto,
      crFuera, crDest, scFix, List.filterMap, List.insertionSort,
      List.orderedInsert]
  · simp

/-- C5 as amended: `geolocalizar_valencia` silently drops every candidate
outside the city bounds, so a request whose candidates all lie out of the
area produces the same `coordenadasNoValidas` outcome as an address with
no candidates at all; the dedicated out-of-area error (line 479) is
unreachable — no request ever produces it. -/
theorem C5_fuera_de_area_no_distinguida :
    (∀ (geodesic : ℚ × ℚ → ℚ × ℚ → ℚ) (so sd : String → ℕ)
        (co cd : List ResultadoCrudo) (df : List StationF),
        (∀ r ∈ co, dentro_de_valencia r.lat r.lon = false) →
          submit geodesic so sd co cd df = Resultado.coordenadasNoValidas) ∧
    (∀ (geodesic : ℚ × ℚ → ℚ × ℚ → ℚ) (so sd : String → ℕ)
        (co cd : List ResultadoCrudo) (df : List StationF),
        submit geodesic so sd co cd df ≠ Resultado.fueraDeValencia) := by
  constructor
  · intro geodesic so sd co cd df h
    unfold submit
    rw [geolocalizar_vacio_si_todo_fuera so co h]
  · intro geodesic so sd co cd df
    unfold submit
    cases ho : geolocalizar_valencia so co with
    | nil => simp
    | cons u us =>
      cases hd : geolocalizar_valencia sd cd with
      | nil => simp
      | cons v vs =>
        have hu : dentro_de_valencia u.lat u.lon = true :=
          geolocalizar_dentro so co u (ho ▸ List.mem_cons_self u us)
        have hv : dentro_de_valencia v.lat v.lon = true :=
          geolocalizar_dentro sd cd v (hd ▸ List.mem_cons_self v vs)
        simp only [hu, hv, Bool.not_true, Bool.or_self, Bool.false_eq_true,
          if_false]
        cases planificar geodesic (u.lat, u.lon) (v.lat, v.lon) df with
        | none => simp
        | some r => simp

/-- Witness for C5's amended theorem. -/
theorem C5_witness :
    submit dTaxi scFix scFix [crFuera] [crDest] [stB]
      = Resultado.coordenadasNoValidas ∧
    submit dTaxi scFix scFix [crOri] [crDest] [stA]
      ≠ Resultado.fueraDeValencia :=
  by
  refine ⟨C5_fuera_de_area_no_distinguida.1 dTaxi scFix scFix [crFuera]
      [crDest] [stB] ?_,
    C5_fuera_de_area_no_distinguida.2 dTaxi scFix scFix [crOri] [crDest] [stA]⟩
  intro r hr
  simp only [List.mem_singleton] at hr
  subst hr
  norm_num [dentro_de_valencia, crFuera]

/-- C8 counterexample: with a failing forecaster the very same request
that succeeds under a working forecaster produces no outcome at all — the
uncaught exception aborts the script before the planner runs — instead of
a recommendation computed from the base snapshot predicates. -/
theorem C8_counterexample :
    submitConPrediccion (fun _ => none) dTaxi scFix scFix [crOri] [crDest]
      [stA.st] = none ∧
    submitConPrediccion (fun _ => some [3]) dTaxi scFix scFix [crOri] [crDest]
      [stA.st]
      = some (Resultado.ruta recA (mapa_ruta_key 39.47 (-0.38) 39.48 (-0.38))) := by
  constructor
  · rfl
  · norm_num [submitConPrediccion, conPrediccion, submit, geolocalizar_valencia,
      dentro_de_valencia, nombre_corto, planificar, est_coger, est_dejar,
      find_nearest, sort_values, alternativa_coger, alternativa_dejar, dTaxi,
      StationF.coord, stA, recA, crOri, crDest, scFix, mapa_ruta_key,
      List.insertionSort, List.orderedInsert, List.filter, List.filterMap]

/-- C8 as amended: a forecaster failure (uncaught exception from
`modelo.predict`, line 82/88) aborts the whole run before the planner
executes; no recommendation is produced and there is no fallback to the
base snapshot predicates. -/
theorem C8_prediccion_fallida_aborta
    (predecir : List Station → Option (List ℤ))
    (geodesic : ℚ × ℚ → ℚ × ℚ → ℚ) (so sd : String → ℕ)
    (co cd : List ResultadoCrudo) (df : List Station)
    (h : predecir df = none) :
    submitConPrediccion predecir geodesic so sd co cd df = none := by
  unfold submitConPrediccion conPrediccion
  rw [h]
  rfl

/-- Witness for C8's amended theorem. -/
theorem C8_witness :
    submitConPrediccion (fun _ => none) dTaxi scFix scFix [crOri] [crDest]
      [stA.st] = none :=
  C8_prediccion_fallida_aborta (fun _ => none) dTaxi scFix scFix [crOri]
    [crDest] [stA.st] rfl

theorem submit_ruta_key (geodesic : ℚ × ℚ → ℚ × ℚ → ℚ) (so sd : String → ℕ)
    (co cd : List ResultadoCrudo) (df : List StationF) (r : Recomendacion)
    (k : ℚ × ℚ × ℚ × ℚ)
    (h : submit geodesic so sd co cd df = Resultado.ruta r k) :
    ∃ u us v vs, geolocalizar_valencia so co = u :: us ∧
      geolocalizar_valencia sd cd = v :: vs ∧
      k = mapa_ruta_key u.lat u.lon v.lat v.lon := by
  unfold submit at h
  split at h
  · simp at h
  · simp at h
  · rename_i u us v vs heqo heqd
    split at h
    · simp at h
    · split at h
      · simp at h
      · rcases h with ⟨rfl, rfl⟩
        exact ⟨u, us, v, vs, heqo, heqd, rfl⟩

/-- C9 counterexample: two requests whose origin latitudes agree after
rounding to 4 decimal places (39.4700001 vs 39.4700002) succeed with
DIFFERENT derived keys, because the key is built from the raw, unrounded
resolved coordinates — so "identical (rounded) coordinates ⇒ same key"
fails on the code. -/
theorem C9_counterexample :
    redondear4 (39.4700001 : ℚ) = redondear4 (39.4700002 : ℚ) ∧
    (39.4700001 : ℚ) ≠ (39.4700002 : ℚ) ∧
    submit dTaxi scFix scFix [crOriA] [crDest] [stA]
      = Resultado.ruta recOA (mapa_ruta_key 39.4700001 (-0.38) 39.48 (-0.38)) ∧
    submit dTaxi scFix scFix [crOriB] [crDest] [stA]
      = Resultado.ruta recOB (mapa_ruta_key 39.4700002 (-0.38) 39.48 (-0.38)) ∧
    mapa_ruta_key 39.4700001 (-0.38) 39.48 (-0.38)
      ≠ mapa_ruta_key 39.4700002 (-0.38) 39.48 (-0.38) := by
  refine ⟨?_, by norm_num, ?_, ?_, ?_⟩
  · have h1 : round ((39.4700001 : ℚ) * 10000) = 394700 := by
      rw [round_eq]
      rw [Int.floor_eq_iff]
      constructor <;> norm_num
    have h2 : round ((39.4700002 : ℚ) * 10000) = 394700 := by
      rw [round_eq]
      rw [Int.floor_eq_iff]
      constructor <;> norm_num
    unfold redondear4
    rw [h1, h2]
  · norm_num [submit, geolocalizar_valencia, dentro_de_valencia, nombre_corto,
      planificar, est_coger, est_dejar, find_nearest, sort_values,
      alternativa_coger, alternativa_dejar, dTaxi, StationF.coord, stA, recOA,
      crOriA, crDest, scFix, mapa_ruta_key, List.insertionSort,
      List.orderedInsert, List.filter, List.filterMap]
  · norm_num [submit, geolocalizar_valencia, dentro_de_valencia, nombre_corto,
      planificar, est_coger, est_dejar, find_nearest, sort_values,
      alternativa_coger, alternativa_dejar, dTaxi, StationF.coord, stA, recOB,
      crOriB, crDest, scFix, mapa_ruta_key, List.insertionSort,
      List.orderedInsert, List.filter, List.filterMap]
  · norm_num [mapa_ruta_key, Prod.ext_iff]

/-- C9 as amended: the derived key is a deterministic function of the four
RAW resolved coordinate values only — two successful requests whose
resolved origin and destination coordinates are equal (unrounded) get the
same key, whatever else (distance function, scores, snapshot) differs. -/
theorem C9_clave_determinista
    (geodesic1 geodesic2 : ℚ × ℚ → ℚ × ℚ → ℚ) (so1 sd1 so2 sd2 : String → ℕ)
    (co1 cd1 co2 cd2 : List ResultadoCrudo) (df1 df2 : List StationF)
    (r1 r2 : Recomendacion) (k1 k2 : ℚ × ℚ × ℚ × ℚ) (u1 v1 u2 v2 : Candidato)
    (hu1 : (geolocalizar_valencia so1 co1).head? = some u1)
    (hv1 : (geolocalizar_valencia sd1 cd1).head? = some v1)
    (hu2 : (geolocalizar_valencia so2 co2).head? = some u2)
    (hv2 : (geolocalizar_valencia sd2 cd2).head? = some v2)
    (hulat : u1.lat = u2.lat) (hulon : u1.lon = u2.lon)
    (hvlat : v1.lat = v2.lat) (hvlon : v1.lon = v2.lon)
    (h1 : submit geodesic1 so1 sd1 co1 cd1 df1 = Resultado.ruta r1 k1)
    (h2 : submit geodesic2 so2 sd2 co2 cd2 df2 = Resultado.ruta r2 k2) :
    k1 = k2 := by
  obtain ⟨a1, as1, b1, bs1, ha1, hb1, hk1⟩ :=
    submit_ruta_key geodesic1 so1 sd1 co1 cd1 df1 r1 k1 h1
  obtain ⟨a2, as2, b2, bs2, ha2, hb2, hk2⟩ :=
    submit_ruta_key geodesic2 so2 sd2 co2 cd2 df2 r2 k2 h2
  rw [ha1] at hu1
  rw [hb1] at hv1
  rw [ha2] at hu2
  rw [hb2] at hv2
  simp only [List.head?_cons, Option.some.injEq] at hu1 hv1 hu2 hv2
  subst hu1 hv1 hu2 hv2
  rw [hk1, hk2]
  unfold mapa_ruta_key
  rw [hulat, hulon, hvlat, hvlon]

/-- Witness for C9's amended theorem: the same origin/destination raw
results submitted with different score functions still derive the same
key. -/
theorem C9_witness :
    mapa_ruta_key 39.47 (-0.38) 39.48 (-0.38)
      = mapa_ruta_key 39.47 (-0.38) 39.48 (-0.38) :=
  C9_clave_determinista dTaxi dTaxi scFix scFix scFix60 scFix60
    [crOri] [crDest] [crOri] [crDest] [stA] [stA] recA recA
    (mapa_ruta_key 39.47 (-0.38) 39.48 (-0.38))
    (mapa_ruta_key 39.47 (-0.38) 39.48 (-0.38))
    ⟨"Calle Origen", 39.47, -0.38, 50⟩ ⟨"Calle Destino", 39.48, -0.38, 50⟩
    ⟨"Calle Origen", 39.47, -0.38, 60⟩ ⟨"Calle Destino", 39.48, -0.38, 60⟩
    (by norm_num [geolocalizar_valencia, dentro_de_valencia, nombre_corto,
      crOri, scFix, List.filterMap, List.insertionSort, List.orderedInsert])
    (by norm_num [geolocalizar_valencia, dentro_de_valencia, nombre_corto,
      crDest, scFix, List.filterMap, List.insertionSort, List.orderedInsert])
    (by norm_num [geolocalizar_valencia, dentro_de_valencia, nombre_corto,
      crOri, scFix60, List.filterMap, List.insertionSort, List.orderedInsert])
    (by norm_num [geolocalizar_valencia, dentro_de_valencia, nombre_corto,
      crDest, scFix60, List.filterMap, List.insertionSort, List.orderedInsert])
    rfl rfl rfl rfl
    (by norm_num [submit, geolocalizar_valencia, dentro_de_valencia,
      nombre_corto, planificar, est_coger, est_dejar, find_nearest, sort_values,
      alternativa_coger, alternativa_dejar, dTaxi, StationF.coord, stA, recA,
      crOri, crDest, scFix, mapa_ruta_key, List.insertionSort,
      List.orderedInsert, List.filter, List.filterMap])
    (by norm_num [submit, geolocalizar_valencia, dentro_de_valencia,
      nombre_corto, planificar, est_coger, est_dejar, find_nearest, sort_values,
      alternativa_coger, alternativa_dejar, dTaxi, StationF.coord, stA, recA,
      crOri, crDest, scFix60, List.insertionSort,
      List.orderedInsert, List.filter, List.filterMap, mapa_ruta_key])
